import Mathlib

/-!
Shallow embedding of the verifier-agent pipeline from this repository
(src/openai.py, src/phi.py, src/app.py).

Modelling conventions:
* Python values flowing through the pipeline (parsed JSON, dict lookups) are
  modelled by the `Json` type below.  JSON numbers are modelled as integers
  (no claim depends on floating point).  Python `None` and JSON `null` are
  both modelled by `Json.null`.
* The Language-Model backend is modelled by an `LLMStub`: one response
  function per prompt template, indexed by the template's interpolated
  arguments (goal, executor output, checklist, original task).  `ApiOutcome`
  is the outcome of one chat call: `success j` means the call returned a body
  that parsed to `j`; `failure e` means the call (or the JSON parse) raised an
  exception rendered as `e`.
* The DDGS search backend is modelled by a function `Json → SearchOutcome`
  from the query value to the outcome of the `ddgs.text` call.
* Agents that talk to a gateway return a pair: the Python return value, and
  the number of gateway invocations performed by that call (0 or 1), so that
  the "no gateway call" parts of the specification are statable.
* `Json.get` models Python `dict.get(key)`; on a non-dict receiver Python
  would raise `AttributeError`, which we model as `Json.null` (no claim in
  scope exercises that path with a non-dict).
-/

/-- JSON-like Python values (dicts, lists, strings, bools, ints, None). -/
inductive Json where
  | null
  | bool (b : Bool)
  | num (n : Int)
  | str (s : String)
  | arr (elems : List Json)
  | obj (fields : List (String × Json))

/-- Python truthiness of a JSON-like value (`bool(x)`), as used by
`result or default` and `if not checklist:` in the sources. -/
def Json.truthy : Json → Bool
  | .null => false
  | .bool b => b
  | .num n => n != 0
  | .str s => s != ""
  | .arr xs => !xs.isEmpty
  | .obj fs => !fs.isEmpty

/-- Python `d.get(k)`: the value stored under `k`, or `None` when the key is
absent (and, in this model, when the receiver is not a dict). -/
def Json.get (j : Json) (k : String) : Json :=
  match j with
  | .obj fs => (List.lookup k fs).getD Json.null
  | _ => Json.null

/-- Python `d.get(k, default)`. -/
def Json.getD (j : Json) (k : String) (d : Json) : Json :=
  match j with
  | .obj fs => (List.lookup k fs).getD d
  | _ => d

/-- Python `s.startswith(p)`: `p` is a prefix of `s` (character-wise). -/
def pyStartsWith (s p : String) : Bool :=
  p.data.isPrefixOf s.data

/-- Does `needle` occur as a contiguous run inside the character list? -/
def containsSeq (needle : List Char) : List Char → Bool
  | [] => needle.isEmpty
  | c :: rest => needle.isPrefixOf (c :: rest) || containsSeq needle rest

/-- Python `needle in haystack` on strings (substring containment, used by
`executor_agent` in src/app.py); the empty needle is contained everywhere. -/
def strContains (haystack needle : String) : Bool :=
  containsSeq needle.data haystack.data

/-- Hexadecimal digit, lowercase, as produced by `json.dumps` escapes. -/
def hexDigit (n : Nat) : Char :=
  if n < 10 then Char.ofNat (48 + n) else Char.ofNat (87 + n)

/-- Four-digit lowercase hex rendering used in `\uXXXX` escapes. -/
def hex4 (n : Nat) : String :=
  String.mk [hexDigit (n / 4096 % 16), hexDigit (n / 256 % 16),
             hexDigit (n / 16 % 16), hexDigit (n % 16)]

/-- Escape of one character inside a JSON string literal, following
`json.dumps` with its default `ensure_ascii=True` (non-ASCII characters
become `\uXXXX` escapes, astral characters become surrogate pairs). -/
def jsonEscapeChar (c : Char) : String :=
  if c = '"' then "\\\""
  else if c = '\\' then "\\\\"
  else if c = '\n' then "\\n"
  else if c = '\r' then "\\r"
  else if c = '\t' then "\\t"
  else if c.toNat = 8 then "\\b"
  else if c.toNat = 12 then "\\f"
  else if c.toNat < 32 then "\\u" ++ hex4 c.toNat
  else if c.toNat < 127 then String.singleton c
  else if c.toNat < 65536 then "\\u" ++ hex4 c.toNat
  else
    "\\u" ++ hex4 (55296 + (c.toNat - 65536) / 1024) ++
    "\\u" ++ hex4 (56320 + (c.toNat - 65536) % 1024)

/-- Body of a JSON string literal under `json.dumps` escaping. -/
def jsonEscape (s : String) : String :=
  String.join (s.toList.map jsonEscapeChar)

mutual

/-- Python `json.dumps` (default separators) on a JSON-like value;
`json.dumps(None)` renders as the four characters `null`. -/
def jsonDumps : Json → String
  | .null => "null"
  | .bool true => "true"
  | .bool false => "false"
  | .num n => toString n
  | .str s => "\"" ++ jsonEscape s ++ "\""
  | .arr xs => "[" ++ String.intercalate ", " (jsonDumpsList xs) ++ "]"
  | .obj fs => "\x7b" ++ String.intercalate ", " (jsonDumpsPairs fs) ++ "\x7d"

/-- `json.dumps` of each element of a JSON array. -/
def jsonDumpsList : List Json → List String
  | [] => []
  | x :: xs => jsonDumps x :: jsonDumpsList xs

/-- `json.dumps` of each `key: value` entry of a JSON object. -/
def jsonDumpsPairs : List (String × Json) → List String
  | [] => []
  | (k, v) :: fs => ("\"" ++ jsonEscape k ++ "\": " ++ jsonDumps v) :: jsonDumpsPairs fs

end

/-- Outcome of one chat-completion call: a body that parsed to `j`, or an
exception rendered as message `e` (covers API errors and JSON-parse errors). -/
inductive ApiOutcome where
  | success (j : Json)
  | failure (e : String)

/-- Outcome of one `ddgs.text(query, max_results=1)` search:
the `body` field of the first result, an empty result list, or an exception
raised inside the search block, rendered as message `e`. -/
inductive SearchOutcome where
  | found (body : String)
  | noResults
  | raised (e : String)

/-- Deterministic stub of the language-model backend: one response function
per prompt template of the sources, indexed by the arguments interpolated
into that template. -/
structure LLMStub where
  plannerReply : String → ApiOutcome
  verifierReply : String → Json → ApiOutcome
  selfVerifierReply : String → Json → ApiOutcome

/-- A stub whose every call has the same outcome. -/
def constStub (o : ApiOutcome) : LLMStub :=
  ⟨fun _ => o, fun _ _ => o, fun _ _ => o⟩

/-- Python `task == "PLANNER_AGENT_FAILED"` for a pipeline value
(true only on exactly that string). -/
def isSentinelTask : Json → Bool
  | .str s => s == "PLANNER_AGENT_FAILED"
  | _ => false

/-- The sentinel plan of src/openai.py line 67:
`{"task": "PLANNER_AGENT_FAILED", "checklist": []}`. -/
def sentinelPlan : Json :=
  Json.obj [("task", Json.str "PLANNER_AGENT_FAILED"), ("checklist", Json.arr [])]

/-- The specification's well-formed-plan shape (section 8 of the spec):
a dict whose `task` is a non-empty string and whose `checklist` is a
sequence of strings.  Written from the spec, to be compared with what the
planners actually return. -/
def wellFormedPlan (j : Json) : Bool :=
  match j with
  | .obj _ =>
      (match j.get "task" with
       | .str s => s != ""
       | _ => false) &&
      (match j.get "checklist" with
       | .arr xs => xs.all fun x => match x with | .str _ => true | _ => false
       | _ => false)
  | _ => false

namespace Openai

/-- src/openai.py `call_openai_api`: returns the parsed JSON on success and
`None` (here `none`) on any exception. -/
def call_openai_api (o : ApiOutcome) : Option Json :=
  match o with
  | .success j => some j
  | .failure _ => none

/-- src/openai.py `planner_agent_openai`: the gateway call's result, with
Python `result or {"task": "PLANNER_AGENT_FAILED", "checklist": []}`
substituting the sentinel for `None` or any falsy result. -/
def planner_agent_openai (llm : LLMStub) (goal : String) : Json :=
  match call_openai_api (llm.plannerReply goal) with
  | some r => if r.truthy then r else sentinelPlan
  | none => sentinelPlan

/-- src/openai.py `executor_agent`; second component counts `ddgs.text`
search invocations. -/
def executor_agent (search : Json → SearchOutcome) (task : Json) : String × Nat :=
  if isSentinelTask task then
    ("Error: Executor received a failed task from the planner.", 0)
  else
    match search task with
    | .found body => (body, 1)
    | .noResults => ("Error: No search results found.", 1)
    | .raised e => ("Error during execution: " ++ e, 1)

/-- Fallback verdict of src/openai.py `verifier_agent_openai`. -/
def verifier_fallback : Json :=
  Json.obj [("verified", Json.bool false), ("reasoning", Json.str "Error in verification API call")]

/-- src/openai.py `verifier_agent_openai`; second component counts
language-model gateway invocations. -/
def verifier_agent_openai (llm : LLMStub) (output : String) (checklist : Json) : Json × Nat :=
  if checklist.truthy = false then
    (Json.obj [("verified", Json.bool false),
      ("reasoning", Json.str "Verification skipped because the planner agent failed to create a checklist.")], 0)
  else
    match call_openai_api (llm.verifierReply output checklist) with
    | some r => (if r.truthy then r else verifier_fallback, 1)
    | none => (verifier_fallback, 1)

/-- Fallback verdict of src/openai.py `self_verifier_agent_openai`. -/
def self_verifier_fallback : Json :=
  Json.obj [("verified", Json.bool false), ("reasoning", Json.str "Error in self-verification API call")]

/-- src/openai.py `self_verifier_agent_openai`; second component counts
language-model gateway invocations. -/
def self_verifier_agent_openai (llm : LLMStub) (output : String) (original_task : Json) : Json × Nat :=
  if isSentinelTask original_task then
    (Json.obj [("verified", Json.bool false),
      ("reasoning", Json.str "Self-verification skipped because the planner agent failed.")], 0)
  else
    match call_openai_api (llm.selfVerifierReply output original_task) with
    | some r => (if r.truthy then r else self_verifier_fallback, 1)
    | none => (self_verifier_fallback, 1)

/-- Verdict built inline by src/openai.py `run_no_verifier_system_openai`. -/
def no_verifier_result (output : String) : Json :=
  Json.obj [("verified", Json.bool (!(pyStartsWith output "Error:"))),
            ("reasoning", Json.str "No verifier present. Assumed success.")]

/-- src/openai.py `run_verifier_system_openai`. -/
def run_verifier_system_openai (llm : LLMStub) (search : Json → SearchOutcome)
    (goal : String) : Json × String × Json :=
  let plan := planner_agent_openai llm goal
  let task := plan.get "task"
  let checklist := plan.getD "checklist" (Json.arr [])
  let output := (executor_agent search task).1
  let result := (verifier_agent_openai llm output checklist).1
  (plan, output, result)

/-- src/openai.py `run_no_verifier_system_openai`. -/
def run_no_verifier_system_openai (llm : LLMStub) (search : Json → SearchOutcome)
    (goal : String) : Json × String × Json :=
  let plan := planner_agent_openai llm goal
  let task := plan.get "task"
  let output := (executor_agent search task).1
  (plan, output, no_verifier_result output)

/-- src/openai.py `run_self_verifier_system_openai`. -/
def run_self_verifier_system_openai (llm : LLMStub) (search : Json → SearchOutcome)
    (goal : String) : Json × String × Json :=
  let plan := planner_agent_openai llm goal
  let task := plan.get "task"
  let output := (executor_agent search task).1
  let result := (self_verifier_agent_openai llm output task).1
  (plan, output, result)

end Openai

namespace Phi

/-- src/phi.py `planner_agent`: the parsed `ollama.chat` reply, or on any
exception the plan `{"task": "Error in planning", "checklist": ["Error: e"]}`.
Note there is no `PLANNER_AGENT_FAILED` sentinel in this file. -/
def planner_agent (llm : LLMStub) (goal : String) : Json :=
  match llm.plannerReply goal with
  | .success j => j
  | .failure e =>
      Json.obj [("task", Json.str "Error in planning"),
                ("checklist", Json.arr [Json.str ("Error: " ++ e)])]

/-- src/phi.py `executor_agent`: no sentinel check of any kind; it always
enters the search block.  Second component counts `ddgs.text` invocations. -/
def executor_agent (search : Json → SearchOutcome) (task : Json) : String × Nat :=
  match search task with
  | .found body => (body, 1)
  | .noResults => ("Error: No search results found.", 1)
  | .raised e => ("Error during execution: " ++ e, 1)

/-- src/phi.py `verifier_agent`: always performs one `ollama.chat` call, with
no empty-checklist short-circuit.  Second component counts gateway calls. -/
def verifier_agent (llm : LLMStub) (output : String) (checklist : Json) : Json × Nat :=
  match llm.verifierReply output checklist with
  | .success j => (j, 1)
  | .failure e =>
      (Json.obj [("verified", Json.bool false),
                 ("reasoning", Json.str ("Error in verification: " ++ e))], 1)

/-- src/phi.py `self_verifier_agent`: always performs one `ollama.chat` call,
with no sentinel-task short-circuit. -/
def self_verifier_agent (llm : LLMStub) (output : String) (original_task : Json) : Json × Nat :=
  match llm.selfVerifierReply output original_task with
  | .success j => (j, 1)
  | .failure e =>
      (Json.obj [("verified", Json.bool false),
                 ("reasoning", Json.str ("Error in self-verification: " ++ e))], 1)

/-- Verdict built inline by src/phi.py `run_no_verifier_system`. -/
def no_verifier_result (output : String) : Json :=
  Json.obj [("verified", Json.bool (!(pyStartsWith output "Error:"))),
            ("reasoning", Json.str "No verifier present. Assumed success.")]

/-- src/phi.py `run_verifier_system`. -/
def run_verifier_system (llm : LLMStub) (search : Json → SearchOutcome)
    (goal : String) : Json × String × Json :=
  let plan := planner_agent llm goal
  let task := plan.get "task"
  let checklist := plan.getD "checklist" (Json.arr [])
  let output := (executor_agent search task).1
  let result := (verifier_agent llm output checklist).1
  (plan, output, result)

/-- src/phi.py `run_no_verifier_system`. -/
def run_no_verifier_system (llm : LLMStub) (search : Json → SearchOutcome)
    (goal : String) : Json × String × Json :=
  let plan := planner_agent llm goal
  let task := plan.get "task"
  let output := (executor_agent search task).1
  (plan, output, no_verifier_result output)

/-- src/phi.py `run_self_verifier_system`. -/
def run_self_verifier_system (llm : LLMStub) (search : Json → SearchOutcome)
    (goal : String) : Json × String × Json :=
  let plan := planner_agent llm goal
  let task := plan.get "task"
  let output := (executor_agent search task).1
  let result := (self_verifier_agent llm output task).1
  (plan, output, result)

end Phi

namespace App

/-- src/app.py `call_openai_api`: with no initialized client it returns an
error dict without calling the API; otherwise it returns the parsed JSON on
success and an `{"error": "API Call Failed: e"}` dict on any exception. -/
def call_openai_api (clientOk : Bool) (o : ApiOutcome) : Json :=
  if clientOk = false then
    Json.obj [("error", Json.str "OpenAI client not initialized. Check API Key in Space Secrets.")]
  else
    match o with
    | .success j => j
    | .failure e => Json.obj [("error", Json.str ("API Call Failed: " ++ e))]

/-- Number of chat-completion calls performed by src/app.py
`call_openai_api`: none when the client is uninitialized, one otherwise. -/
def call_openai_api_calls (clientOk : Bool) : Nat :=
  if clientOk then 1 else 0

/-- src/app.py `planner_agent_openai`: delegates to `call_openai_api`;
no sentinel substitution and no validation of the reply. -/
def planner_agent_openai (clientOk : Bool) (llm : LLMStub) (goal : String) : Json :=
  call_openai_api clientOk (llm.plannerReply goal)

/-- src/app.py `executor_agent`: rejects non-strings and any task containing
`"FAILED"` or `"error"` as a substring, otherwise searches.  Second
component counts `ddgs.text` invocations. -/
def executor_agent (search : Json → SearchOutcome) (task : Json) : String × Nat :=
  match task with
  | .str t =>
      if strContains t "FAILED" || strContains t "error" then
        ("Error: Executor received an invalid task from the planner.", 0)
      else
        match search (Json.str t) with
        | .found body => (body, 1)
        | .noResults => ("Error: No search results found.", 1)
        | .raised e => ("Error during execution: " ++ e, 1)
  | _ => ("Error: Executor received an invalid task from the planner.", 0)

/-- src/app.py `verifier_agent_openai`: always delegates to
`call_openai_api` (no empty-checklist short-circuit).  Second component
counts gateway calls. -/
def verifier_agent_openai (clientOk : Bool) (llm : LLMStub) (output : String)
    (checklist : Json) : Json × Nat :=
  (call_openai_api clientOk (llm.verifierReply output checklist),
   call_openai_api_calls clientOk)

/-- src/app.py `self_verifier_agent_openai`: always delegates to
`call_openai_api` (no sentinel-task short-circuit). -/
def self_verifier_agent_openai (clientOk : Bool) (llm : LLMStub) (output : String)
    (original_task : Json) : Json × Nat :=
  (call_openai_api clientOk (llm.selfVerifierReply output original_task),
   call_openai_api_calls clientOk)

/-- Verdict built inline by the `No Verifier Baseline` branch of src/app.py
`run_agent_system` (line 92). -/
def no_verifier_result (output : String) : Json :=
  Json.obj [("verified", Json.bool (!(pyStartsWith output "Error:"))),
            ("reasoning", Json.str "No Verifier present. Assumed success if no execution error.")]

end App

/-- One benchmark entry of the `BENCHMARK_TASKS` lists. -/
structure BenchmarkTask where
  id : Nat
  goal : String

/-- The `BENCHMARK_TASKS` list, identical in src/openai.py and src/phi.py. -/
def BENCHMARK_TASKS : List BenchmarkTask :=
  [⟨1, "What is the boiling point of water at sea level in Celsius?"⟩,
   ⟨2, "Who is the current CEO of Microsoft?"⟩,
   ⟨3, "What year did the first moon landing occur?"⟩,
   ⟨4, "Find the main ingredient in a traditional Japanese Miso soup."⟩,
   ⟨5, "What is the capital city of Australia?"⟩,
   ⟨6, "What is the population of the underwater city of Atlantis?"⟩,
   ⟨7, "Find the official website for the Stark Industries corporation from the Iron Man movies."⟩,
   ⟨8, "What is the chemical formula for Kryptonite?"⟩,
   ⟨9, "Who is the king of the United States?"⟩,
   ⟨10, "How many dragons are there in the wild in Germany?"⟩,
   ⟨11, "What is the weather like?"⟩,
   ⟨12, "Find a good recipe."⟩,
   ⟨13, "How tall is the president?"⟩,
   ⟨14, "Is it a holiday today?"⟩,
   ⟨15, "What is the latest news?"⟩,
   ⟨16, "What was the score of the 1955 Super Bowl?"⟩,
   ⟨17, "Did Thomas Edison invent the light bulb?"⟩,
   ⟨18, "Is water a good conductor of electricity?"⟩,
   ⟨19, "What is the currency used in Switzerland?"⟩,
   ⟨20, "Find the text of the \x27Gettysburg Address\x27 written by George Washington."⟩]

/-- One row written by `writer.writerow` in the `main` of src/openai.py and
src/phi.py (both build the same dict, field for field). -/
structure CsvRow where
  task_id : Nat
  goal : String
  system_type : String
  planner_task : Json
  planner_checklist : String
  executor_output : String
  system_reported_success : Json
  verifier_reasoning : Json

/-- The row built for one `(task_item, system)` pair in `main`:
`plan.get('task')`, `json.dumps(plan.get('checklist'))`, the executor
output, `result.get('verified')` and `result.get('reasoning')`. -/
def writeRow (t : BenchmarkTask) (system_name : String)
    (system_func : String → Json × String × Json) : CsvRow :=
  { task_id := t.id,
    goal := t.goal,
    system_type := system_name,
    planner_task := (system_func t.goal).1.get "task",
    planner_checklist := jsonDumps ((system_func t.goal).1.get "checklist"),
    executor_output := (system_func t.goal).2.1,
    system_reported_success := (system_func t.goal).2.2.get "verified",
    verifier_reasoning := (system_func t.goal).2.2.get "reasoning" }

/-- The full sequence of rows emitted by the nested loop of `main`
(`for task_item in BENCHMARK_TASKS: for system_name, system_func in
systems.items(): writer.writerow(...)`), for an arbitrary benchmark and an
arbitrary ordered strategy mapping. -/
def mainRows (tasks : List BenchmarkTask)
    (systems : List (String × (String → Json × String × Json))) : List CsvRow :=
  tasks.flatMap fun t => systems.map fun ns => writeRow t ns.1 ns.2

/-- The `systems` dict of src/openai.py `main`, in declaration order. -/
def systems_openai (llm : LLMStub) (search : Json → SearchOutcome) :
    List (String × (String → Json × String × Json)) :=
  [("Verifier_System_GPT4o", Openai.run_verifier_system_openai llm search),
   ("No_Verifier_Baseline_GPT4o", Openai.run_no_verifier_system_openai llm search),
   ("Self_Verifier_Baseline_GPT4o", Openai.run_self_verifier_system_openai llm search)]

/-- The `systems` dict of src/phi.py `main`, in declaration order. -/
def systems_phi (llm : LLMStub) (search : Json → SearchOutcome) :
    List (String × (String → Json × String × Json)) :=
  [("Verifier_System", Phi.run_verifier_system llm search),
   ("No_Verifier_Baseline", Phi.run_no_verifier_system llm search),
   ("Self_Verifier_Baseline", Phi.run_self_verifier_system llm search)]

/-- The rows written to `evaluation_results_openai.csv` by src/openai.py
`main`, as a function of the stubbed backends. -/
def main_rows_openai (llm : LLMStub) (search : Json → SearchOutcome) : List CsvRow :=
  mainRows BENCHMARK_TASKS (systems_openai llm search)

/-- The rows written to `evaluation_results.csv` by src/phi.py `main`,
as a function of the stubbed backends. -/
def main_rows_phi (llm : LLMStub) (search : Json → SearchOutcome) : List CsvRow :=
  mainRows BENCHMARK_TASKS (systems_phi llm search)

/-- A canned language-model stub used for concrete witnesses: every call
succeeds with a fixed well-formed planner reply. -/
def cannedLLM : LLMStub :=
  constStub (ApiOutcome.success
    (Json.obj [("task", Json.str "current CEO of Microsoft"),
               ("checklist", Json.arr [Json.str "names the CEO of Microsoft"]),
               ("verified", Json.bool true),
               ("reasoning", Json.str "the output names the CEO")]))

/-- A canned search stub used for concrete witnesses. -/
def cannedSearch : Json → SearchOutcome :=
  fun _ => SearchOutcome.found "Satya Nadella is the CEO of Microsoft."

/-- Length of the harness output: one row is emitted for every
`(task, system)` pair of the nested loop. -/
theorem mainRows_length (tasks : List BenchmarkTask)
    (systems : List (String × (String → Json × String × Json))) :
    (mainRows tasks systems).length = tasks.length * systems.length := by
  induction tasks with
  | nil => exact (Nat.zero_mul systems.length).symm
  | cons t ts ih =>
      show ((systems.map fun ns => writeRow t ns.1 ns.2) ++ mainRows ts systems).length
        = (ts.length + 1) * systems.length
      rw [List.length_append, List.length_map, ih]
      ring

/-- Position of each harness row: row `k` is the row of task `k / M` and
strategy `k % M`, where `M` is the number of strategies. -/
theorem mainRows_getElem? (tasks : List BenchmarkTask)
    (systems : List (String × (String → Json × String × Json))) (k : Nat)
    (t : BenchmarkTask) (ns : String × (String → Json × String × Json))
    (ht : tasks[k / systems.length]? = some t)
    (hs : systems[k % systems.length]? = some ns) :
    (mainRows tasks systems)[k]? = some (writeRow t ns.1 ns.2) := by
  induction tasks generalizing k with
  | nil => simp at ht
  | cons t0 ts ih =>
      have hM : 0 < systems.length := by
        by_contra hM
        have hnil : systems = [] := by
          cases systems with
          | nil => rfl
          | cons a l => simp at hM
        rw [hnil] at hs
        simp at hs
      by_cases hk : k < systems.length
      · rw [Nat.div_eq_of_lt hk] at ht
        rw [Nat.mod_eq_of_lt hk] at hs
        have ht0 : t0 = t := by simpa using ht
        subst ht0
        show ((systems.map fun ns => writeRow t0 ns.1 ns.2) ++ mainRows ts systems)[k]?
          = some (writeRow t0 ns.1 ns.2)
        rw [List.getElem?_append_left (by simpa using hk), List.getElem?_map, hs]
        rfl
      · push_neg at hk
        obtain ⟨j, rfl⟩ : ∃ j, k = j + systems.length :=
          ⟨k - systems.length, (Nat.sub_add_cancel hk).symm⟩
        show ((systems.map fun ns => writeRow t0 ns.1 ns.2) ++ mainRows ts systems)[j + systems.length]?
          = some (writeRow t ns.1 ns.2)
        rw [List.getElem?_append_right
          (by simp only [List.length_map]; exact Nat.le_add_left systems.length j)]
        simp only [List.length_map, Nat.add_sub_cancel]
        apply ih
        · rw [Nat.add_div_right _ hM] at ht
          simpa using ht
        · rw [Nat.add_mod_right] at hs
          exact hs

/-- The task-id column of the harness output: each benchmark task
contributes one contiguous block of `M` equal ids. -/
theorem mainRows_map_task_id (tasks : List BenchmarkTask)
    (systems : List (String × (String → Json × String × Json))) :
    ((mainRows tasks systems).map fun r => r.task_id)
      = tasks.flatMap fun t => List.replicate systems.length t.id := by
  induction tasks with
  | nil => rfl
  | cons t ts ih =>
      rw [List.flatMap_cons]
      show ((systems.map fun ns => writeRow t ns.1 ns.2) ++ mainRows ts systems).map _ = _
      rw [List.map_append, ih, List.map_map]
      congr 1
      show systems.map (fun _ => t.id) = List.replicate systems.length t.id
      exact List.map_const' ..

/-- Replicating each element of a sorted id sequence keeps it sorted. -/
theorem sorted_flatMap_replicate (l : List BenchmarkTask) (n : Nat)
    (h : (l.map fun t => t.id).Sorted (· ≤ ·)) :
    (l.flatMap fun t => List.replicate n t.id).Sorted (· ≤ ·) := by
  induction l with
  | nil => simp [List.Sorted]
  | cons a l ih =>
      rw [List.flatMap_cons]
      rw [List.map_cons, List.sorted_cons] at h
      apply List.pairwise_append.2
      refine ⟨List.pairwise_replicate.2 (Or.inr le_rfl), ih h.2, ?_⟩
      intro x hx y hy
      obtain rfl := List.eq_of_mem_replicate hx
      obtain ⟨b, hb, hyb⟩ := List.mem_flatMap.1 hy
      obtain rfl := List.eq_of_mem_replicate hyb
      exact h.1 b.id (List.mem_map.2 ⟨b, hb, rfl⟩)

/-- C1, counterexample: in the interactive implementation (src/app.py), a
failing Gateway call makes `planner_agent_openai` return the dict
`{"error": "API Call Failed: boom"}`, which is neither a well-formed plan
(no `task` key at all) nor the planner-failure sentinel plan — a third
shape is returned. -/
theorem c1_planner_shape_counterexample :
    App.planner_agent_openai true (constStub (ApiOutcome.failure "boom"))
        "Who is the current CEO of Microsoft?"
      = Json.obj [("error", Json.str "API Call Failed: boom")] ∧
    wellFormedPlan (Json.obj [("error", Json.str "API Call Failed: boom")]) = false ∧
    isSentinelTask ((Json.obj [("error", Json.str "API Call Failed: boom")]).get "task") = false :=
  ⟨rfl, rfl, rfl⟩

/-- C1, amended: for every goal and Gateway behaviour, the batch OpenAI
planner returns either the Gateway's parsed JSON verbatim or exactly the
sentinel `{task: PLANNER_AGENT_FAILED, checklist: []}`; the phi planner
returns the Gateway's JSON verbatim on success and
`{task: "Error in planning", checklist: ["Error: e"]}` on failure; the
interactive planner returns the Gateway's JSON verbatim on success and an
`{"error": ...}` dict on failure.  No implementation validates that a
successful Gateway reply is a well-formed plan. -/
theorem c1_planner_shapes (llm : LLMStub) (goal : String) :
    (Openai.planner_agent_openai llm goal = sentinelPlan ∨
      ∃ j, llm.plannerReply goal = ApiOutcome.success j ∧
        Openai.planner_agent_openai llm goal = j) ∧
    ((∃ e, llm.plannerReply goal = ApiOutcome.failure e ∧
        Phi.planner_agent llm goal =
          Json.obj [("task", Json.str "Error in planning"),
                    ("checklist", Json.arr [Json.str ("Error: " ++ e)])]) ∨
      ∃ j, llm.plannerReply goal = ApiOutcome.success j ∧ Phi.planner_agent llm goal = j) ∧
    ((∃ e, llm.plannerReply goal = ApiOutcome.failure e ∧
        App.planner_agent_openai true llm goal =
          Json.obj [("error", Json.str ("API Call Failed: " ++ e))]) ∨
      ∃ j, llm.plannerReply goal = ApiOutcome.success j ∧
        App.planner_agent_openai true llm goal = j) := by
  rcases h : llm.plannerReply goal with j | e
  · refine ⟨?_, Or.inr ⟨j, rfl, ?_⟩, Or.inr ⟨j, rfl, ?_⟩⟩
    · cases ht : j.truthy
      · exact Or.inl (by simp [Openai.planner_agent_openai, Openai.call_openai_api, h, ht])
      · exact Or.inr ⟨j, rfl, by simp [Openai.planner_agent_openai, Openai.call_openai_api, h, ht]⟩
    · simp [Phi.planner_agent, h]
    · simp [App.planner_agent_openai, App.call_openai_api, h]
  · exact ⟨Or.inl (by simp [Openai.planner_agent_openai, Openai.call_openai_api, h]),
      Or.inl ⟨e, rfl, by simp [Phi.planner_agent, h]⟩,
      Or.inl ⟨e, rfl, by simp [App.planner_agent_openai, App.call_openai_api, h]⟩⟩

/-- C2, counterexample: the phi executor has no sentinel check, so on a plan
task equal to the planner-failure sentinel it performs one Search-Gateway
call and returns the retrieved snippet, which is not error-marked; the same
happens for phi's own failure task `"Error in planning"`. -/
theorem c2_sentinel_execution_counterexample :
    Phi.executor_agent (fun _ => SearchOutcome.found "Satya Nadella is the CEO of Microsoft.")
        (Json.str "PLANNER_AGENT_FAILED")
      = ("Satya Nadella is the CEO of Microsoft.", 1) ∧
    pyStartsWith "Satya Nadella is the CEO of Microsoft." "Error:" = false ∧
    Phi.executor_agent (fun _ => SearchOutcome.found "Planning is the process of thinking.")
        (Json.str "Error in planning")
      = ("Planning is the process of thinking.", 1) :=
  ⟨rfl, rfl, rfl⟩

/-- C2, amended: on a task equal to the planner-failure sentinel, the batch
OpenAI executor and the interactive executor return an error-marked string
(starting with `"Error:"`) with zero Search-Gateway calls; the phi executor
performs its search call anyway. -/
theorem c2_sentinel_short_circuit (search : Json → SearchOutcome) :
    Openai.executor_agent search (Json.str "PLANNER_AGENT_FAILED")
      = ("Error: Executor received a failed task from the planner.", 0) ∧
    pyStartsWith "Error: Executor received a failed task from the planner." "Error:" = true ∧
    App.executor_agent search (Json.str "PLANNER_AGENT_FAILED")
      = ("Error: Executor received an invalid task from the planner.", 0) ∧
    pyStartsWith "Error: Executor received an invalid task from the planner." "Error:" = true ∧
    (Phi.executor_agent search (Json.str "PLANNER_AGENT_FAILED")).2 = 1 := by
  refine ⟨rfl, rfl, rfl, rfl, ?_⟩
  cases hs : search (Json.str "PLANNER_AGENT_FAILED") <;> simp [Phi.executor_agent, hs]

/-- C3, counterexample: the phi verifier has no empty-checklist
short-circuit: with an empty checklist it still performs one Gateway call
and returns the model's verdict verbatim, here `verified: true`. -/
theorem c3_empty_checklist_counterexample :
    Phi.verifier_agent
        (constStub (ApiOutcome.success
          (Json.obj [("verified", Json.bool true), ("reasoning", Json.str "looks plausible")])))
        "some executor output" (Json.arr [])
      = (Json.obj [("verified", Json.bool true), ("reasoning", Json.str "looks plausible")], 1) :=
  rfl

/-- C3, amended: with an empty checklist the batch OpenAI verifier returns
`verified: false` with zero Gateway calls, but the phi and interactive
verifiers both perform one Gateway call even then. -/
theorem c3_empty_checklist_short_circuit (llm : LLMStub) (output : String) :
    Openai.verifier_agent_openai llm output (Json.arr [])
      = (Json.obj [("verified", Json.bool false),
          ("reasoning", Json.str "Verification skipped because the planner agent failed to create a checklist.")], 0) ∧
    (Phi.verifier_agent llm output (Json.arr [])).2 = 1 ∧
    (App.verifier_agent_openai true llm output (Json.arr [])).2 = 1 := by
  refine ⟨rfl, ?_, rfl⟩
  cases h : llm.verifierReply output (Json.arr []) <;> simp [Phi.verifier_agent, h]

/-- C4: in all three implementations the No-Verifier verdict is
`verified = not output.startswith("Error:")` — a prefix-only check, so the
empty string and strings with the marker only mid-string verify — with a
fixed constant reasoning string, and the no-verifier pipeline's verdict is
exactly this function of its executor output. -/
theorem c4_no_verifier_verdict (s goal : String) (llm : LLMStub)
    (search : Json → SearchOutcome) :
    ((Openai.no_verifier_result s).get "verified" = Json.bool true
      ↔ pyStartsWith s "Error:" = false) ∧
    (Openai.no_verifier_result s).get "reasoning"
      = Json.str "No verifier present. Assumed success." ∧
    ((Phi.no_verifier_result s).get "verified" = Json.bool true
      ↔ pyStartsWith s "Error:" = false) ∧
    (Phi.no_verifier_result s).get "reasoning"
      = Json.str "No verifier present. Assumed success." ∧
    ((App.no_verifier_result s).get "verified" = Json.bool true
      ↔ pyStartsWith s "Error:" = false) ∧
    (App.no_verifier_result s).get "reasoning"
      = Json.str "No Verifier present. Assumed success if no execution error." ∧
    (Openai.run_no_verifier_system_openai llm search goal).2.2
      = Openai.no_verifier_result (Openai.run_no_verifier_system_openai llm search goal).2.1 ∧
    (Phi.run_no_verifier_system llm search goal).2.2
      = Phi.no_verifier_result (Phi.run_no_verifier_system llm search goal).2.1 := by
  refine ⟨?_, rfl, ?_, rfl, ?_, rfl, rfl, rfl⟩ <;>
    cases hb : pyStartsWith s "Error:" <;>
      simp [Openai.no_verifier_result, Phi.no_verifier_result, App.no_verifier_result,
        Json.get, hb]

/-- C5, counterexample: the interactive self-verifier has no sentinel-task
short-circuit: on the sentinel task it performs one Gateway call and
returns the model's verdict verbatim, here `verified: true`. -/
theorem c5_sentinel_self_verification_counterexample :
    App.self_verifier_agent_openai true
        (constStub (ApiOutcome.success
          (Json.obj [("verified", Json.bool true), ("reasoning", Json.str "output looks complete")])))
        "some executor output" (Json.str "PLANNER_AGENT_FAILED")
      = (Json.obj [("verified", Json.bool true), ("reasoning", Json.str "output looks complete")], 1) :=
  rfl

/-- C5, amended: on the sentinel task the batch OpenAI self-verifier
returns `verified: false` with zero Gateway calls, but the phi and
interactive self-verifiers both perform one Gateway call even then. -/
theorem c5_sentinel_self_verifier_short_circuit (llm : LLMStub) (output : String) :
    Openai.self_verifier_agent_openai llm output (Json.str "PLANNER_AGENT_FAILED")
      = (Json.obj [("verified", Json.bool false),
          ("reasoning", Json.str "Self-verification skipped because the planner agent failed.")], 0) ∧
    (Phi.self_verifier_agent llm output (Json.str "PLANNER_AGENT_FAILED")).2 = 1 ∧
    (App.self_verifier_agent_openai true llm output (Json.str "PLANNER_AGENT_FAILED")).2 = 1 := by
  refine ⟨rfl, ?_, rfl⟩
  cases h : llm.selfVerifierReply output (Json.str "PLANNER_AGENT_FAILED") <;>
    simp [Phi.self_verifier_agent, h]

/-- C6, counterexample: on a raised search exception the executor returns
`"Error during execution: ..."`, which does not begin with the `"Error:"`
marker that the No-Verifier check recognizes — this failure path is not
error-marked in the claimed sense (same text in all three executors; shown
for phi and batch OpenAI). -/
theorem c6_error_marker_counterexample :
    Phi.executor_agent (fun _ => SearchOutcome.raised "HTTP timeout")
        (Json.str "capital of Australia")
      = ("Error during execution: HTTP timeout", 1) ∧
    pyStartsWith "Error during execution: HTTP timeout" "Error:" = false ∧
    Openai.executor_agent (fun _ => SearchOutcome.raised "HTTP timeout")
        (Json.str "capital of Australia")
      = ("Error during execution: HTTP timeout", 1) :=
  ⟨rfl, rfl, rfl⟩

/-- C6, amended: for every task and every Search-Gateway behaviour, each of
the three executors returns a string (never raises): either the retrieved
snippet, or a failure string that begins with `"Error"` — but the
exception path's `"Error during execution: ..."` does not carry the full
`"Error:"` marker. -/
theorem c6_executor_total (search : Json → SearchOutcome) (task : Json) :
    ((∃ b, search task = SearchOutcome.found b ∧ (Openai.executor_agent search task).1 = b) ∨
      ∃ r, (Openai.executor_agent search task).1 = "Error" ++ r) ∧
    ((∃ b, search task = SearchOutcome.found b ∧ (Phi.executor_agent search task).1 = b) ∨
      ∃ r, (Phi.executor_agent search task).1 = "Error" ++ r) ∧
    ((∃ b t, task = Json.str t ∧ search task = SearchOutcome.found b ∧
        (App.executor_agent search task).1 = b) ∨
      ∃ r, (App.executor_agent search task).1 = "Error" ++ r) := by
  refine ⟨?_, ?_, ?_⟩
  · cases hsent : isSentinelTask task
    · cases hs : search task with
      | found b =>
          exact Or.inl ⟨b, rfl, by simp [Openai.executor_agent, hsent, hs]⟩
      | noResults =>
          refine Or.inr ⟨": No search results found.", ?_⟩
          simp [Openai.executor_agent, hsent, hs]
      | raised e =>
          refine Or.inr ⟨" during execution: " ++ e, ?_⟩
          simp only [Openai.executor_agent, hsent, hs, Bool.false_eq_true, if_false]
          exact (String.append_assoc "Error" " during execution: " e).symm
    · exact Or.inr ⟨": Executor received a failed task from the planner.",
        by simp [Openai.executor_agent, hsent]⟩
  · cases hs : search task with
    | found b => exact Or.inl ⟨b, rfl, by simp [Phi.executor_agent, hs]⟩
    | noResults =>
        exact Or.inr ⟨": No search results found.", by simp [Phi.executor_agent, hs]⟩
    | raised e =>
        refine Or.inr ⟨" during execution: " ++ e, ?_⟩
        simp only [Phi.executor_agent, hs]
        exact (String.append_assoc "Error" " during execution: " e).symm
  · cases task with
    | str t =>
        cases hc : strContains t "FAILED" || strContains t "error"
        · cases hs : search (Json.str t) with
          | found b =>
              exact Or.inl ⟨b, t, rfl, rfl, by simp [App.executor_agent, hc, hs]⟩
          | noResults =>
              exact Or.inr ⟨": No search results found.", by simp [App.executor_agent, hc, hs]⟩
          | raised e =>
              refine Or.inr ⟨" during execution: " ++ e, ?_⟩
              simp only [App.executor_agent, hc, Bool.false_eq_true, if_false, hs]
              exact (String.append_assoc "Error" " during execution: " e).symm
        · exact Or.inr ⟨": Executor received an invalid task from the planner.",
            by simp [App.executor_agent, hc]⟩
    | null => exact Or.inr ⟨": Executor received an invalid task from the planner.", rfl⟩
    | bool b => exact Or.inr ⟨": Executor received an invalid task from the planner.", rfl⟩
    | num n => exact Or.inr ⟨": Executor received an invalid task from the planner.", rfl⟩
    | arr xs => exact Or.inr ⟨": Executor received an invalid task from the planner.", rfl⟩
    | obj fs => exact Or.inr ⟨": Executor received an invalid task from the planner.", rfl⟩

/-- C7: for every benchmark and every ordered strategy mapping, the harness
loop emits exactly `N * M` rows; row `k` is the row of task `k / M` and
strategy `k % M` (task-major order: task-id ascending when the benchmark's
ids are ascending, strategy declaration order within one task). -/
theorem c7_harness_order (tasks : List BenchmarkTask)
    (systems : List (String × (String → Json × String × Json))) (k : Nat)
    (t : BenchmarkTask) (ns : String × (String → Json × String × Json))
    (ht : tasks[k / systems.length]? = some t)
    (hs : systems[k % systems.length]? = some ns)
    (hsorted : (tasks.map fun b => b.id).Sorted (· ≤ ·)) :
    (mainRows tasks systems).length = tasks.length * systems.length ∧
    (mainRows tasks systems)[k]? = some (writeRow t ns.1 ns.2) ∧
    ((mainRows tasks systems).map fun r => r.task_id).Sorted (· ≤ ·) :=
  ⟨mainRows_length tasks systems,
   mainRows_getElem? tasks systems k t ns ht hs,
   by
     rw [mainRows_map_task_id]
     exact sorted_flatMap_replicate tasks systems.length hsorted⟩

/-- C7, witness: the concrete benchmark of src/openai.py (20 tasks,
ids ascending) with its three declared strategies: 60 rows; row 4 is
benchmark task 2 under the second declared strategy. -/
theorem c7_harness_order_witness :
    (mainRows BENCHMARK_TASKS (systems_openai cannedLLM cannedSearch)).length
      = BENCHMARK_TASKS.length * (systems_openai cannedLLM cannedSearch).length ∧
    (mainRows BENCHMARK_TASKS (systems_openai cannedLLM cannedSearch))[4]?
      = some (writeRow ⟨2, "Who is the current CEO of Microsoft?"⟩
          "No_Verifier_Baseline_GPT4o"
          (Openai.run_no_verifier_system_openai cannedLLM cannedSearch)) ∧
    ((mainRows BENCHMARK_TASKS (systems_openai cannedLLM cannedSearch)).map
        fun r => r.task_id).Sorted (· ≤ ·) :=
  c7_harness_order BENCHMARK_TASKS (systems_openai cannedLLM cannedSearch) 4
    ⟨2, "Who is the current CEO of Microsoft?"⟩
    ("No_Verifier_Baseline_GPT4o", Openai.run_no_verifier_system_openai cannedLLM cannedSearch)
    (by rfl) (by rfl) (by decide)

/-- C8, counterexample: when the plan carries no checklist value,
`json.dumps(plan.get('checklist'))` serializes the row's checklist field as
the literal `null`, which is not a JSON array string. -/
theorem c8_checklist_null_counterexample :
    (writeRow ⟨6, "What is the population of the underwater city of Atlantis?"⟩
        "Verifier_System_GPT4o"
        (fun _ => (Json.obj [("task", Json.str "population of Atlantis")],
                   "Error: No search results found.", Json.obj []))).planner_checklist
      = "null" ∧
    pyStartsWith "null" "[" = false :=
  ⟨rfl, rfl⟩

/-- C8, amended: the row's checklist field is `json.dumps` of
`plan.get('checklist')`: a JSON array string (bracket-delimited) whenever
that value is a list, but the literal `null` when the plan carries no
checklist value. -/
theorem c8_checklist_serialization (t : BenchmarkTask) (name : String)
    (sys : String → Json × String × Json) (xs : List Json) :
    (writeRow t name sys).planner_checklist = jsonDumps ((sys t.goal).1.get "checklist") ∧
    (∃ r, jsonDumps (Json.arr xs) = "[" ++ r ++ "]") ∧
    jsonDumps Json.null = "null" :=
  ⟨rfl, ⟨String.intercalate ", " (jsonDumpsList xs), rfl⟩, rfl⟩

/-- C9: with fixed deterministic stubbed Gateways (pointwise-equal stubs),
the pipelines of src/openai.py and src/phi.py are deterministic functions
of the goal and the stub responses: equal `(Plan, ExecutionResult,
Verdict)` triples, equal harness rows, and equal full harness outputs. -/
theorem c9_pipeline_deterministic (llm₁ llm₂ : LLMStub)
    (search₁ search₂ : Json → SearchOutcome) (goal : String)
    (t : BenchmarkTask) (name : String)
    (hp : ∀ g, llm₁.plannerReply g = llm₂.plannerReply g)
    (hv : ∀ o c, llm₁.verifierReply o c = llm₂.verifierReply o c)
    (hsv : ∀ o c, llm₁.selfVerifierReply o c = llm₂.selfVerifierReply o c)
    (hq : ∀ q, search₁ q = search₂ q) :
    Openai.run_verifier_system_openai llm₁ search₁ goal
      = Openai.run_verifier_system_openai llm₂ search₂ goal ∧
    Openai.run_no_verifier_system_openai llm₁ search₁ goal
      = Openai.run_no_verifier_system_openai llm₂ search₂ goal ∧
    Openai.run_self_verifier_system_openai llm₁ search₁ goal
      = Openai.run_self_verifier_system_openai llm₂ search₂ goal ∧
    Phi.run_verifier_system llm₁ search₁ goal = Phi.run_verifier_system llm₂ search₂ goal ∧
    Phi.run_no_verifier_system llm₁ search₁ goal = Phi.run_no_verifier_system llm₂ search₂ goal ∧
    Phi.run_self_verifier_system llm₁ search₁ goal
      = Phi.run_self_verifier_system llm₂ search₂ goal ∧
    writeRow t name (Openai.run_verifier_system_openai llm₁ search₁)
      = writeRow t name (Openai.run_verifier_system_openai llm₂ search₂) ∧
    main_rows_openai llm₁ search₁ = main_rows_openai llm₂ search₂ ∧
    main_rows_phi llm₁ search₁ = main_rows_phi llm₂ search₂ := by
  have hl : llm₁ = llm₂ := by
    cases llm₁
    cases llm₂
    simp only [LLMStub.mk.injEq]
    exact ⟨funext hp, funext fun o => funext fun c => hv o c,
      funext fun o => funext fun c => hsv o c⟩
  have hse : search₁ = search₂ := funext hq
  subst hl
  subst hse
  exact ⟨rfl, rfl, rfl, rfl, rfl, rfl, rfl, rfl, rfl⟩

/-- C9, witness: the determinism theorem applied to one concrete canned
stub pair and the benchmark goal of task 2. -/
theorem c9_pipeline_deterministic_witness :
    Openai.run_verifier_system_openai cannedLLM cannedSearch "Who is the current CEO of Microsoft?"
      = Openai.run_verifier_system_openai cannedLLM cannedSearch "Who is the current CEO of Microsoft?" ∧
    Openai.run_no_verifier_system_openai cannedLLM cannedSearch "Who is the current CEO of Microsoft?"
      = Openai.run_no_verifier_system_openai cannedLLM cannedSearch "Who is the current CEO of Microsoft?" ∧
    Openai.run_self_verifier_system_openai cannedLLM cannedSearch "Who is the current CEO of Microsoft?"
      = Openai.run_self_verifier_system_openai cannedLLM cannedSearch "Who is the current CEO of Microsoft?" ∧
    Phi.run_verifier_system cannedLLM cannedSearch "Who is the current CEO of Microsoft?"
      = Phi.run_verifier_system cannedLLM cannedSearch "Who is the current CEO of Microsoft?" ∧
    Phi.run_no_verifier_system cannedLLM cannedSearch "Who is the current CEO of Microsoft?"
      = Phi.run_no_verifier_system cannedLLM cannedSearch "Who is the current CEO of Microsoft?" ∧
    Phi.run_self_verifier_system cannedLLM cannedSearch "Who is the current CEO of Microsoft?"
      = Phi.run_self_verifier_system cannedLLM cannedSearch "Who is the current CEO of Microsoft?" ∧
    writeRow ⟨2, "Who is the current CEO of Microsoft?"⟩ "Verifier_System_GPT4o"
        (Openai.run_verifier_system_openai cannedLLM cannedSearch)
      = writeRow ⟨2, "Who is the current CEO of Microsoft?"⟩ "Verifier_System_GPT4o"
        (Openai.run_verifier_system_openai cannedLLM cannedSearch) ∧
    main_rows_openai cannedLLM cannedSearch = main_rows_openai cannedLLM cannedSearch ∧
    main_rows_phi cannedLLM cannedSearch = main_rows_phi cannedLLM cannedSearch :=
  c9_pipeline_deterministic cannedLLM cannedLLM cannedSearch cannedSearch
    "Who is the current CEO of Microsoft?" ⟨2, "Who is the current CEO of Microsoft?"⟩
    "Verifier_System_GPT4o"
    (fun _ => rfl) (fun _ _ => rfl) (fun _ _ => rfl) (fun _ => rfl)

/-- C10: the interactive executor rejects by substring containment, not
sentinel equality: any non-string task, and any string task containing
`"FAILED"` or `"error"` anywhere, yields the fixed error-marked string with
zero Search-Gateway calls. -/
theorem c10_app_substring_rejection (search : Json → SearchOutcome) (task : Json)
    (h : ∀ s, task = Json.str s →
      strContains s "FAILED" = true ∨ strContains s "error" = true) :
    App.executor_agent search task
      = ("Error: Executor received an invalid task from the planner.", 0) := by
  cases task with
  | str t =>
      rcases h t rfl with h1 | h1 <;> simp [App.executor_agent, h1]
  | null => rfl
  | bool b => rfl
  | num n => rfl
  | arr xs => rfl
  | obj fs => rfl

/-- C10, witness: a legitimate-looking task whose text merely contains the
substring `"error"` is rejected without any search call. -/
theorem c10_app_substring_rejection_witness :
    App.executor_agent cannedSearch (Json.str "summarize the error logs")
      = ("Error: Executor received an invalid task from the planner.", 0) :=
  c10_app_substring_rejection cannedSearch (Json.str "summarize the error logs")
    (fun s hs => by cases hs; exact Or.inr rfl)
